import Mathlib

set_option linter.unusedVariables false

/-!
Verification of the template image finder (`DefaultTemplateImageFinder`) of the
km-auto-desk repository.

The finder locates every needle-sized window of a haystack image whose
normalized cross-correlation (NCC) score passes a confidence threshold.  The
embedding below mirrors the TypeScript source:

* Images are modelled after the pixel-buffer adapter stage: `Image.data` is the
  row-major single-channel (grayscale) sample list that `imageToRawBuffer`
  produces from the raw interleaved buffer via the external `sharp` codec.
  `imageToRawBuffer` models sharp's raw-input contract: it fails unless both
  dimensions are positive and the buffer length matches `width * height`.
* JavaScript floating-point statistics are modelled by exact arithmetic:
  sums, means, variances and covariances live in `ℚ`; square roots (and hence
  standard deviations, NCC scores and confidences) live in `ℝ`.
* The source tests `stdDev === 0` and multiplies two standard deviations.
  Since `Real.sqrt v = 0 ↔ v = 0` for `v ≥ 0`, the zero tests are phrased on
  the squared standard deviation (`calculateStdDevSq`, the population
  variance), which keeps them decidable; the NCC denominator keeps the
  source's `Real.sqrt regionVar * Real.sqrt needleVar` shape.  The lemma
  `calculateStdDev_eq_zero_iff` records the correspondence.
* JavaScript `for (let y = 0; y <= height - nh; y++)` loops are embedded as
  folds over `List.range (height + 1 - nh)`: for `nh ≤ height` this is the
  inclusive range `0 .. height - nh`, and for `nh > height` both the JS loop
  body and the (truncated-subtraction) range are empty.
-/

namespace KmAutoDesk

/-- Region class: a rectangular area `{left, top, width, height}` within an
image, as in the source's `Region` class. -/
structure Region where
  left : ℕ
  top : ℕ
  width : ℕ
  height : ℕ
deriving DecidableEq, Repr

/-- Area of a region: width × height. -/
def Region.area (r : Region) : ℕ := r.width * r.height

/-- The errors thrown by `findMatches` or embedded into results by
`findMatch`: dimension validation failure, pixel-buffer conversion failure,
and the `No matches found` sentinel. -/
inductive FinderError where
  | needleLargerThanHaystack
  | conversionFailed
  | noMatchesFound
deriving DecidableEq, Repr

/-- Match result: confidence, location, optional embedded error. -/
structure MatchResult where
  confidence : ℝ
  location : Region
  error : Option FinderError := none

/-- Image entity as seen after the pixel-buffer adapter: dimensions plus the
row-major grayscale sample list derived from the raw interleaved data. -/
structure Image where
  width : ℕ
  height : ℕ
  data : List ℕ

/-- Match request: haystack, needle, optional minimum confidence.  (The
source's `providerData` field is unused by the finder and omitted.) -/
structure MatchRequest where
  haystack : Image
  needle : Image
  confidence : Option ℝ

/-- The finder's default minimum confidence threshold. -/
noncomputable def DEFAULT_CONFIDENCE : ℝ := 0.8

/-- Conversion of an `Image` to its grayscale sample buffer.
Models the `sharp(image.data, { raw: {width, height, channels} })`
`.grayscale().raw().toBuffer()` pipeline: sharp rejects raw descriptors whose
dimensions are not positive or whose buffer length is inconsistent with the
declared dimensions, and otherwise yields the row-major one-byte-per-pixel
grayscale buffer, which our `Image.data` already carries. -/
def imageToRawBuffer (image : Image) : Except FinderError (List ℕ) :=
  if 0 < image.width ∧ 0 < image.height ∧ image.data.length = image.width * image.height then
    .ok image.data
  else
    .error .conversionFailed

/-- Arithmetic mean of all samples of a buffer
(`sum / buffer.length`, summed by the source's index loop). -/
def calculateMean (buffer : List ℕ) : ℚ :=
  ((List.range buffer.length).map (fun i => (buffer.getD i 0 : ℚ))).sum / buffer.length

/-- The squared population standard deviation (variance) of a buffer:
`sumSq / buffer.length` with `sumSq` the source's loop
`sumSq += Math.pow(buffer[i] - mean, 2)`. -/
def calculateStdDevSq (buffer : List ℕ) (mean : ℚ) : ℚ :=
  ((List.range buffer.length).map (fun i => ((buffer.getD i 0 : ℚ) - mean) ^ 2)).sum /
    buffer.length

/-- Population standard deviation,
`Math.sqrt(sumSq / buffer.length)`. -/
noncomputable def calculateStdDev (buffer : List ℕ) (mean : ℚ) : ℝ :=
  Real.sqrt (calculateStdDevSq buffer mean)

/-- Window extraction: copies `regionHeight` rows of `regionWidth` samples,
starting at `(x, y)`, out of a `width`-wide buffer.  The target is a fresh
zero-initialized `Uint8Array(regionWidth * regionHeight)` and each row is
copied with `subarray` (which clamps at the buffer end), so any samples past
the source buffer's end remain `0`; in-bounds calls are plain row copies. -/
def extractRegion (buffer : List ℕ) (width x y regionWidth regionHeight : ℕ) : List ℕ :=
  (List.range regionHeight).flatMap (fun j =>
    let row := (buffer.drop ((y + j) * width + x)).take regionWidth
    row ++ List.replicate (regionWidth - row.length) 0)

/-- Normalized cross-correlation of a haystack window against
the needle, mapped to `[0,1]` confidence space via `(ncc + 1) / 2`.  The
source receives the needle's standard deviation; the embedding receives its
square (the variance) and applies `Real.sqrt` at the use sites, see the file
comment. -/
noncomputable def calculateNCC (regionBuffer needleBuffer : List ℕ)
    (needleMean needleStdDevSq : ℚ) : ℝ :=
  let regionMean := calculateMean regionBuffer
  let regionStdDevSq := calculateStdDevSq regionBuffer regionMean
  if regionStdDevSq = 0 then
    if needleStdDevSq = 0 then 1 else 0
  else
    let covariance : ℚ :=
      ((List.range regionBuffer.length).map (fun i =>
        ((regionBuffer.getD i 0 : ℚ) - regionMean) *
          ((needleBuffer.getD i 0 : ℚ) - needleMean))).sum / regionBuffer.length
    let ncc : ℝ := (covariance : ℝ) / (Real.sqrt regionStdDevSq * Real.sqrt needleStdDevSq)
    (ncc + 1) / 2

/-- Exact-match fallback for uniform (zero-variance)
needles.  For each candidate offset it tests every window pixel against the
uniform needle value (the source's early-exit `allMatch` flag is the
conjunction of all the per-pixel tests) and pushes a confidence-`1.0` match
for fully matching windows. -/
def findUniformMatches (haystackBuffer : List ℕ) (haystackWidth haystackHeight : ℕ)
    (needleBuffer : List ℕ) (needleWidth needleHeight : ℕ) (needleValue : ℚ)
    (minConfidence : ℝ) : List MatchResult :=
  (List.range (haystackHeight + 1 - needleHeight)).foldl (fun matchList y =>
    (List.range (haystackWidth + 1 - needleWidth)).foldl (fun matchList x =>
      let allMatch := (List.range needleHeight).all (fun j =>
        (List.range needleWidth).all (fun i =>
          decide ((haystackBuffer.getD ((y + j) * haystackWidth + (x + i)) 0 : ℚ) = needleValue)))
      if allMatch then
        matchList ++ [{ confidence := 1.0, location := ⟨x, y, needleWidth, needleHeight⟩ }]
      else matchList) matchList) []

/-- Template matching: precomputes the needle statistics; a zero-variance
needle is delegated to `findUniformMatches`, otherwise every candidate offset
is scanned in raster order and windows whose NCC confidence passes the
threshold are pushed, in scan order. -/
noncomputable def templateMatch (haystackBuffer : List ℕ) (haystackWidth haystackHeight : ℕ)
    (needleBuffer : List ℕ) (needleWidth needleHeight : ℕ) (minConfidence : ℝ) :
    List MatchResult :=
  let needleMean := calculateMean needleBuffer
  let needleStdDevSq := calculateStdDevSq needleBuffer needleMean
  if needleStdDevSq = 0 then
    findUniformMatches haystackBuffer haystackWidth haystackHeight needleBuffer
      needleWidth needleHeight needleMean minConfidence
  else
    (List.range (haystackHeight + 1 - needleHeight)).foldl (fun matchList y =>
      (List.range (haystackWidth + 1 - needleWidth)).foldl (fun matchList x =>
        let regionBuffer := extractRegion haystackBuffer haystackWidth x y needleWidth needleHeight
        let confidence := calculateNCC regionBuffer needleBuffer needleMean needleStdDevSq
        if confidence ≥ minConfidence then
          matchList ++ [{ confidence := confidence, location := ⟨x, y, needleWidth, needleHeight⟩ }]
        else matchList) matchList) []

/-- Multi-match search: resolves the threshold, validates the dimensions (a hard
failure, thrown before any scanning), converts both images to grayscale
buffers and runs `templateMatch`.  Thrown errors propagate. -/
noncomputable def findMatches (matchRequest : MatchRequest) :
    Except FinderError (List MatchResult) :=
  let minConfidence := matchRequest.confidence.getD DEFAULT_CONFIDENCE
  if matchRequest.haystack.width < matchRequest.needle.width ∨
      matchRequest.haystack.height < matchRequest.needle.height then
    .error .needleLargerThanHaystack
  else
    match imageToRawBuffer matchRequest.haystack with
    | .error e => .error e
    | .ok haystackBuffer =>
      match imageToRawBuffer matchRequest.needle with
      | .error e => .error e
      | .ok needleBuffer =>
        .ok (templateMatch haystackBuffer matchRequest.haystack.width
          matchRequest.haystack.height needleBuffer matchRequest.needle.width
          matchRequest.needle.height minConfidence)

/-- The reducer of the source's `matches.reduce((best, current) => ...)`:
replace the current best only on strictly greater confidence. -/
noncomputable def bestOf (best current : MatchResult) : MatchResult :=
  if current.confidence > best.confidence then current else best

/-- Single-match search: runs `findMatches` inside a `try`; an empty result list
yields the zero-confidence `No matches found` result, a thrown error is
caught and embedded into a zero-confidence result, and otherwise the matches
are reduced with `bestOf` (JavaScript `reduce` without an initial value:
start from the first element, fold over the rest). -/
noncomputable def findMatch (matchRequest : MatchRequest) : MatchResult :=
  match findMatches matchRequest with
  | .error e => { confidence := 0, location := ⟨0, 0, 0, 0⟩, error := some e }
  | .ok [] => { confidence := 0, location := ⟨0, 0, 0, 0⟩, error := some .noMatchesFound }
  | .ok (first :: rest) => rest.foldl bestOf first

/-- Spec-side description of the general-case scan: candidate offsets in
raster order (outer loop `y` ascending, inner loop `x` ascending), each window
scored by NCC, matches meeting the threshold kept in scan order.  Written
from the spec's words, to be compared with `templateMatch`. -/
noncomputable def templateMatchRaster (haystackBuffer : List ℕ)
    (haystackWidth haystackHeight : ℕ) (needleBuffer : List ℕ) (needleWidth needleHeight : ℕ)
    (minConfidence : ℝ) : List MatchResult :=
  (List.range (haystackHeight + 1 - needleHeight)).flatMap (fun y =>
    (List.range (haystackWidth + 1 - needleWidth)).filterMap (fun x =>
      let confidence := calculateNCC
        (extractRegion haystackBuffer haystackWidth x y needleWidth needleHeight)
        needleBuffer (calculateMean needleBuffer)
        (calculateStdDevSq needleBuffer (calculateMean needleBuffer))
      if confidence ≥ minConfidence then
        some { confidence := confidence, location := ⟨x, y, needleWidth, needleHeight⟩ }
      else none))

/-- The window at offset `(x, y)` consists entirely of the value `v`. -/
def uniformWindowHit (haystackBuffer : List ℕ) (haystackWidth needleWidth needleHeight : ℕ)
    (v : ℚ) (x y : ℕ) : Prop :=
  ∀ j < needleHeight, ∀ i < needleWidth,
    (haystackBuffer.getD ((y + j) * haystackWidth + (x + i)) 0 : ℚ) = v

instance instDecidableUniformWindowHit (hb : List ℕ) (hw nw nh : ℕ) (v : ℚ) (x y : ℕ) :
    Decidable (uniformWindowHit hb hw nw nh v x y) := by
  unfold uniformWindowHit
  infer_instance

/-! ### Basic lemmas about the statistics and the loop embeddings -/

lemma sum_list_range (n : ℕ) (f : ℕ → ℚ) :
    ((List.range n).map f).sum = ∑ i in Finset.range n, f i := by
  induction n with
  | zero => simp
  | succ k ih =>
    rw [List.range_succ, List.map_append, List.sum_append, Finset.sum_range_succ, ih]
    simp

lemma calculateStdDevSq_nonneg (buffer : List ℕ) (mean : ℚ) :
    0 ≤ calculateStdDevSq buffer mean := by
  unfold calculateStdDevSq
  apply div_nonneg _ (by positivity)
  apply List.sum_nonneg
  intro q hq
  simp only [List.mem_map] at hq
  obtain ⟨i, _, hi⟩ := hq
  rw [← hi]
  positivity

lemma calculateStdDev_eq_zero_iff (buffer : List ℕ) (mean : ℚ) :
    calculateStdDev buffer mean = 0 ↔ calculateStdDevSq buffer mean = 0 := by
  unfold calculateStdDev
  rw [Real.sqrt_eq_zero (by exact_mod_cast calculateStdDevSq_nonneg buffer mean)]
  exact_mod_cast Iff.rfl

lemma calculateStdDevSq_eq_zero_iff (buffer : List ℕ) (mean : ℚ) :
    calculateStdDevSq buffer mean = 0 ↔
      ∀ i < buffer.length, (buffer.getD i 0 : ℚ) = mean := by
  unfold calculateStdDevSq
  rcases Nat.eq_zero_or_pos buffer.length with h0 | hpos
  · simp [h0]
  · rw [div_eq_zero_iff]
    have hlen : ((buffer.length : ℚ)) ≠ 0 := by positivity
    rw [sum_list_range]
    constructor
    · rintro (hs | hl)
      · intro i hi
        have := (Finset.sum_eq_zero_iff_of_nonneg (fun j _ => sq_nonneg _)).mp hs i
          (Finset.mem_range.mpr hi)
        have h2 : ((buffer.getD i 0 : ℚ) - mean) = 0 := by
          exact pow_eq_zero_iff (n := 2) (by norm_num) |>.mp this
        linarith
      · exact absurd hl hlen
    · intro hall
      left
      apply Finset.sum_eq_zero
      intro i hi
      rw [hall i (Finset.mem_range.mp hi)]
      ring

lemma foldl_eq_append_flatMap {α β : Type} (g : List β → α → List β) (h : α → List β)
    (hg : ∀ acc a, g acc a = acc ++ h a) :
    ∀ (l : List α) (acc : List β), l.foldl g acc = acc ++ l.flatMap h := by
  intro l
  induction l with
  | nil => intro acc; simp
  | cons a t ih =>
    intro acc
    rw [List.foldl_cons, hg, ih, List.flatMap_cons, List.append_assoc]

lemma flatMap_ite_singleton {α β : Type} (p : α → Prop) [DecidablePred p] (f : α → β)
    (l : List α) :
    l.flatMap (fun a => if p a then [f a] else []) =
      l.filterMap (fun a => if p a then some (f a) else none) := by
  induction l with
  | nil => rfl
  | cons a t ih => by_cases h : p a <;> simp [h, ih]

lemma append_ite_singleton {β : Type} (acc : List β) (c : Prop) [Decidable c] (v : β) :
    (if c then acc ++ [v] else acc) = acc ++ (if c then [v] else []) := by
  by_cases h : c <;> simp [h]

/-- The imperative push-into-accumulator double loop equals the declarative
raster-order `flatMap`/`filterMap` description. -/
lemma nested_foldl_eq {β : Type} (W H : ℕ) (p : ℕ → ℕ → Prop) [∀ x y, Decidable (p x y)]
    (f : ℕ → ℕ → β) :
    (List.range H).foldl (fun acc y => (List.range W).foldl (fun acc2 x =>
      if p x y then acc2 ++ [f x y] else acc2) acc) [] =
    (List.range H).flatMap (fun y => (List.range W).filterMap (fun x =>
      if p x y then some (f x y) else none)) := by
  rw [foldl_eq_append_flatMap _
    (fun y => (List.range W).filterMap (fun x => if p x y then some (f x y) else none))]
  · simp
  · intro acc y
    rw [foldl_eq_append_flatMap _ (fun x => if p x y then [f x y] else []),
      flatMap_ite_singleton]
    intro acc2 x
    exact append_ite_singleton acc2 (p x y) (f x y)

lemma allMatch_eq_true_iff (hb : List ℕ) (hw nw nh : ℕ) (v : ℚ) (x y : ℕ) :
    ((List.range nh).all (fun j => (List.range nw).all (fun i =>
      decide ((hb.getD ((y + j) * hw + (x + i)) 0 : ℚ) = v))) = true) ↔
      uniformWindowHit hb hw nw nh v x y := by
  simp [List.all_eq_true, List.mem_range, uniformWindowHit]

lemma findUniformMatches_eq (hb : List ℕ) (hw hh : ℕ) (nb : List ℕ) (nw nh : ℕ)
    (v : ℚ) (t : ℝ) :
    findUniformMatches hb hw hh nb nw nh v t =
      (List.range (hh + 1 - nh)).flatMap (fun y =>
        (List.range (hw + 1 - nw)).filterMap (fun x =>
          if uniformWindowHit hb hw nw nh v x y then
            some { confidence := 1, location := ⟨x, y, nw, nh⟩, error := none }
          else none)) := by
  unfold findUniformMatches
  rw [nested_foldl_eq]
  apply List.flatMap_congr
  intro y hy
  apply List.filterMap_congr
  intro x hx
  have h10 : (1.0 : ℝ) = 1 := by norm_num
  rw [if_congr (allMatch_eq_true_iff hb hw nw nh v x y) (by rw [h10]) rfl]

lemma mem_findUniformMatches (hb : List ℕ) (hw hh : ℕ) (nb : List ℕ) (nw nh : ℕ)
    (v : ℚ) (t : ℝ) (m : MatchResult) :
    m ∈ findUniformMatches hb hw hh nb nw nh v t ↔
      ∃ x y, y < hh + 1 - nh ∧ x < hw + 1 - nw ∧ uniformWindowHit hb hw nw nh v x y ∧
        m = { confidence := 1, location := ⟨x, y, nw, nh⟩, error := none } := by
  rw [findUniformMatches_eq]
  simp only [List.mem_flatMap, List.mem_filterMap, List.mem_range]
  constructor
  · rintro ⟨y, hy, x, hx, hsome⟩
    split at hsome
    · rename_i hhit
      exact ⟨x, y, hy, hx, hhit, (Option.some_inj.mp hsome).symm⟩
    · exact absurd hsome (by simp)
  · rintro ⟨x, y, hy, hx, hhit, hm⟩
    exact ⟨y, hy, x, hx, by rw [if_pos hhit, hm]⟩

lemma templateMatch_uniform (hb : List ℕ) (hw hh : ℕ) (nb : List ℕ) (nw nh : ℕ) (t : ℝ)
    (hvar : calculateStdDevSq nb (calculateMean nb) = 0) :
    templateMatch hb hw hh nb nw nh t =
      findUniformMatches hb hw hh nb nw nh (calculateMean nb) t := by
  unfold templateMatch
  simp only [hvar, if_pos]

lemma templateMatch_general (hb : List ℕ) (hw hh : ℕ) (nb : List ℕ) (nw nh : ℕ) (t : ℝ)
    (hvar : calculateStdDevSq nb (calculateMean nb) ≠ 0) :
    templateMatch hb hw hh nb nw nh t = templateMatchRaster hb hw hh nb nw nh t := by
  unfold templateMatch templateMatchRaster
  simp only [hvar, if_neg, if_false]
  rw [nested_foldl_eq]

/-! ### Lemmas about `extractRegion` -/

lemma getD_drop (l : List ℕ) (s j : ℕ) (h : s + j < l.length) :
    (l.drop s).getD j 0 = l.getD (s + j) 0 := by
  rw [List.getD_eq_getElem _ _ (by simpa using by omega), List.getD_eq_getElem _ _ h]
  simp [List.getElem_drop]

lemma getD_take (l : List ℕ) (i j : ℕ) (hj : j < i) (h2 : j < l.length) :
    (l.take i).getD j 0 = l.getD j 0 := by
  rw [List.getD_eq_getElem _ _ (by simp; omega), List.getD_eq_getElem _ _ h2]
  simp [List.getElem_take]

lemma pad_length (row : List ℕ) (k : ℕ) (h : row.length ≤ k) :
    (row ++ List.replicate (k - row.length) 0).length = k := by
  simp only [List.length_append, List.length_replicate]
  omega

lemma extractRegion_row_length (buffer : List ℕ) (s k : ℕ) :
    (((buffer.drop s).take k) ++
      List.replicate (k - ((buffer.drop s).take k).length) 0).length = k :=
  pad_length _ _ (List.length_take_le _ _)

lemma flatMap_length_uniform {α : Type} (l : List α) (f : α → List ℕ) (k : ℕ)
    (hk : ∀ a ∈ l, (f a).length = k) : (l.flatMap f).length = l.length * k := by
  induction l with
  | nil => simp
  | cons a t ih =>
    rw [List.flatMap_cons, List.length_append, hk a (by simp),
      ih (fun b hb => hk b (by simp [hb])), List.length_cons]
    ring

lemma extractRegion_length (buffer : List ℕ) (width x y regionWidth regionHeight : ℕ) :
    (extractRegion buffer width x y regionWidth regionHeight).length =
      regionHeight * regionWidth := by
  unfold extractRegion
  rw [flatMap_length_uniform _ _ regionWidth
    (fun j hj => extractRegion_row_length buffer ((y + j) * width + x) regionWidth)]
  simp

lemma extractRegion_getD (buffer : List ℕ) (width x y regionWidth regionHeight i j : ℕ)
    (hi : i < regionWidth) (hj : j < regionHeight)
    (hbound : (y + j) * width + x + regionWidth ≤ buffer.length) :
    (extractRegion buffer width x y regionWidth regionHeight).getD (j * regionWidth + i) 0 =
      buffer.getD ((y + j) * width + (x + i)) 0 := by
  unfold extractRegion
  have hsplit : List.range regionHeight =
      List.range j ++ (List.range (regionHeight - j)).map (j + ·) := by
    rw [← List.range_add]
    congr 1
    omega
  rw [hsplit, List.flatMap_append]
  have hpre : (((List.range j).flatMap (fun j2 =>
      let row := (buffer.drop ((y + j2) * width + x)).take regionWidth
      row ++ List.replicate (regionWidth - row.length) 0)).length) = j * regionWidth := by
    rw [flatMap_length_uniform _ _ regionWidth
      (fun j2 hj2 => extractRegion_row_length buffer ((y + j2) * width + x) regionWidth)]
    simp
  rw [List.getD_append_right _ _ _ _ (by rw [hpre]; exact Nat.le_add_right _ _)]
  rw [hpre]
  have hidx : j * regionWidth + i - j * regionWidth = i := by omega
  rw [hidx]
  have hsplit2 : List.range (regionHeight - j) =
      List.range 1 ++ (List.range (regionHeight - j - 1)).map (1 + ·) := by
    rw [← List.range_add]
    congr 1
    omega
  rw [hsplit2]
  rw [List.map_append, List.flatMap_append]
  have hrange1 : (List.range 1).map (j + ·) = [j] := rfl
  rw [hrange1]
  have hrow : ([j].flatMap (fun j2 =>
      let row := (buffer.drop ((y + j2) * width + x)).take regionWidth
      row ++ List.replicate (regionWidth - row.length) 0)) =
      (buffer.drop ((y + j) * width + x)).take regionWidth ++
        List.replicate
          (regionWidth - ((buffer.drop ((y + j) * width + x)).take regionWidth).length) 0 := by
    simp
  rw [hrow]
  have hrowlen : ((buffer.drop ((y + j) * width + x)).take regionWidth).length =
      regionWidth := by
    simp only [List.length_take, List.length_drop]
    omega
  rw [List.getD_append _ _ _ _ (by rw [pad_length _ _ (List.length_take_le _ _)]; omega)]
  rw [List.getD_append _ _ _ _ (by rw [hrowlen]; omega)]
  rw [getD_take _ _ _ hi (by simp only [List.length_drop]; omega)]
  rw [getD_drop _ _ _ (by omega)]
  congr 1
  omega

lemma mem_templateMatchRaster (hb : List ℕ) (hw hh : ℕ) (nb : List ℕ) (nw nh : ℕ)
    (t : ℝ) (m : MatchResult) :
    m ∈ templateMatchRaster hb hw hh nb nw nh t ↔
      ∃ x y, y < hh + 1 - nh ∧ x < hw + 1 - nw ∧
        calculateNCC (extractRegion hb hw x y nw nh) nb (calculateMean nb)
          (calculateStdDevSq nb (calculateMean nb)) ≥ t ∧
        m = { confidence := calculateNCC (extractRegion hb hw x y nw nh) nb (calculateMean nb)
                (calculateStdDevSq nb (calculateMean nb)),
              location := ⟨x, y, nw, nh⟩, error := none } := by
  unfold templateMatchRaster
  simp only [List.mem_flatMap, List.mem_filterMap, List.mem_range]
  constructor
  · rintro ⟨y, hy, x, hx, hsome⟩
    split at hsome
    · rename_i hconf
      exact ⟨x, y, hy, hx, hconf, (Option.some_inj.mp hsome).symm⟩
    · exact absurd hsome (by simp)
  · rintro ⟨x, y, hy, hx, hconf, hm⟩
    exact ⟨y, hy, x, hx, by rw [if_pos hconf, hm]⟩

/-! ### Structural lemmas about `findMatches` and `findMatch` -/

lemma findMatches_eq_ok (req : MatchRequest)
    (h1 : ¬(req.haystack.width < req.needle.width ∨ req.haystack.height < req.needle.height))
    (h2 : 0 < req.haystack.width ∧ 0 < req.haystack.height ∧
      req.haystack.data.length = req.haystack.width * req.haystack.height)
    (h3 : 0 < req.needle.width ∧ 0 < req.needle.height ∧
      req.needle.data.length = req.needle.width * req.needle.height) :
    findMatches req = .ok (templateMatch req.haystack.data req.haystack.width
      req.haystack.height req.needle.data req.needle.width req.needle.height
      (req.confidence.getD DEFAULT_CONFIDENCE)) := by
  unfold findMatches imageToRawBuffer
  rw [if_neg h1, if_pos h2, if_pos h3]

lemma findMatches_ok_inv (req : MatchRequest) (ms : List MatchResult)
    (h : findMatches req = .ok ms) :
    ¬(req.haystack.width < req.needle.width ∨ req.haystack.height < req.needle.height) ∧
    (0 < req.haystack.width ∧ 0 < req.haystack.height ∧
      req.haystack.data.length = req.haystack.width * req.haystack.height) ∧
    (0 < req.needle.width ∧ 0 < req.needle.height ∧
      req.needle.data.length = req.needle.width * req.needle.height) ∧
    ms = templateMatch req.haystack.data req.haystack.width req.haystack.height
      req.needle.data req.needle.width req.needle.height
      (req.confidence.getD DEFAULT_CONFIDENCE) := by
  unfold findMatches imageToRawBuffer at h
  by_cases h1 : req.haystack.width < req.needle.width ∨
      req.haystack.height < req.needle.height
  · rw [if_pos h1] at h
    simp at h
  · rw [if_neg h1] at h
    by_cases h2 : 0 < req.haystack.width ∧ 0 < req.haystack.height ∧
        req.haystack.data.length = req.haystack.width * req.haystack.height
    · rw [if_pos h2] at h
      by_cases h3 : 0 < req.needle.width ∧ 0 < req.needle.height ∧
          req.needle.data.length = req.needle.width * req.needle.height
      · rw [if_pos h3] at h
        simp only [Except.ok.injEq] at h
        exact ⟨h1, h2, h3, h.symm⟩
      · rw [if_neg h3] at h
        simp at h
    · rw [if_neg h2] at h
      simp at h

lemma findMatch_of_error (req : MatchRequest) (e : FinderError)
    (h : findMatches req = .error e) :
    findMatch req = { confidence := 0, location := ⟨0, 0, 0, 0⟩, error := some e } := by
  unfold findMatch
  rw [h]

lemma findMatch_of_empty (req : MatchRequest) (h : findMatches req = .ok []) :
    findMatch req =
      { confidence := 0, location := ⟨0, 0, 0, 0⟩, error := some .noMatchesFound } := by
  unfold findMatch
  rw [h]

lemma findMatch_of_cons (req : MatchRequest) (first : MatchResult) (rest : List MatchResult)
    (h : findMatches req = .ok (first :: rest)) :
    findMatch req = rest.foldl bestOf first := by
  unfold findMatch
  rw [h]

/-! ### The NCC confidence is always in the unit interval -/

lemma ncc_formula_bound (S A B N : ℝ) (hN : 0 < N) (hA : 0 ≤ A) (hB : 0 ≤ B)
    (hCS : S ^ 2 ≤ A * B) :
    0 ≤ ((S / N) / (Real.sqrt (A / N) * Real.sqrt (B / N)) + 1) / 2 ∧
      ((S / N) / (Real.sqrt (A / N) * Real.sqrt (B / N)) + 1) / 2 ≤ 1 := by
  rcases eq_or_lt_of_le hA with hA0 | hApos
  · rw [← hA0]
    simp
    norm_num
  · rcases eq_or_lt_of_le hB with hB0 | hBpos
    · rw [← hB0]
      simp
      norm_num
    · have hAN : 0 < A / N := div_pos hApos hN
      have hBN : 0 < B / N := div_pos hBpos hN
      have hd : 0 < Real.sqrt (A / N) * Real.sqrt (B / N) :=
        mul_pos (Real.sqrt_pos.mpr hAN) (Real.sqrt_pos.mpr hBN)
      have hd2 : (Real.sqrt (A / N) * Real.sqrt (B / N)) ^ 2 = (A / N) * (B / N) := by
        rw [mul_pow, Real.sq_sqrt hAN.le, Real.sq_sqrt hBN.le]
      have hncc2 : ((S / N) / (Real.sqrt (A / N) * Real.sqrt (B / N))) ^ 2 ≤ 1 := by
        rw [div_pow, hd2, div_le_one (by positivity), div_pow, div_mul_div_comm,
          ← pow_two N, div_le_div_iff_of_pos_right (by positivity)]
        exact hCS
      have habs : |(S / N) / (Real.sqrt (A / N) * Real.sqrt (B / N))| ≤ 1 :=
        (sq_le_one_iff_abs_le_one _).mp hncc2
      have hb := abs_le.mp habs
      constructor <;> linarith [hb.1, hb.2]

lemma calculateStdDevSq_as_sum (buffer : List ℕ) (mean : ℚ) :
    calculateStdDevSq buffer mean =
      (∑ i in Finset.range buffer.length, ((buffer.getD i 0 : ℚ) - mean) ^ 2) /
        (buffer.length : ℚ) := by
  unfold calculateStdDevSq
  rw [sum_list_range]

lemma calculateNCC_mem_unit (regionBuffer needleBuffer : List ℕ)
    (hlen : needleBuffer.length = regionBuffer.length) :
    0 ≤ calculateNCC regionBuffer needleBuffer (calculateMean needleBuffer)
        (calculateStdDevSq needleBuffer (calculateMean needleBuffer)) ∧
      calculateNCC regionBuffer needleBuffer (calculateMean needleBuffer)
        (calculateStdDevSq needleBuffer (calculateMean needleBuffer)) ≤ 1 := by
  simp only [calculateNCC]
  split_ifs with h1 h2
  · norm_num
  · norm_num
  · have hN0 : regionBuffer.length ≠ 0 := by
      intro h0
      apply h1
      rw [calculateStdDevSq_as_sum, h0]
      simp
    rw [calculateStdDevSq_as_sum regionBuffer, calculateStdDevSq_as_sum needleBuffer,
      sum_list_range, hlen]
    have hCS : (∑ i in Finset.range regionBuffer.length,
        ((regionBuffer.getD i 0 : ℚ) - calculateMean regionBuffer) *
          ((needleBuffer.getD i 0 : ℚ) - calculateMean needleBuffer)) ^ 2 ≤
        (∑ i in Finset.range regionBuffer.length,
          ((regionBuffer.getD i 0 : ℚ) - calculateMean regionBuffer) ^ 2) *
        ∑ i in Finset.range regionBuffer.length,
          ((needleBuffer.getD i 0 : ℚ) - calculateMean needleBuffer) ^ 2 :=
      Finset.sum_mul_sq_le_sq_mul_sq (Finset.range regionBuffer.length) _ _
    push_cast
    exact ncc_formula_bound _ _ _ _
      (by exact_mod_cast Nat.pos_of_ne_zero hN0)
      (by positivity)
      (by positivity)
      (by exact_mod_cast hCS)

lemma templateMatch_confidence_unit (hb : List ℕ) (hw hh : ℕ) (nb : List ℕ) (nw nh : ℕ)
    (t : ℝ) (hnb : nb.length = nw * nh) (m : MatchResult)
    (hm : m ∈ templateMatch hb hw hh nb nw nh t) :
    0 ≤ m.confidence ∧ m.confidence ≤ 1 := by
  by_cases hvar : calculateStdDevSq nb (calculateMean nb) = 0
  · rw [templateMatch_uniform _ _ _ _ _ _ _ hvar] at hm
    obtain ⟨x, y, _, _, _, hm⟩ := (mem_findUniformMatches _ _ _ _ _ _ _ _ _).mp hm
    rw [hm]
    norm_num
  · rw [templateMatch_general _ _ _ _ _ _ _ hvar] at hm
    obtain ⟨x, y, _, _, _, hm⟩ := (mem_templateMatchRaster _ _ _ _ _ _ _ _).mp hm
    rw [hm]
    exact calculateNCC_mem_unit _ _ (by rw [extractRegion_length, hnb, Nat.mul_comm])

/-! ### The `reduce`-style selection picks the first match of maximal confidence -/

lemma foldl_bestOf_firstMax (ms : List MatchResult) :
    ∀ m : MatchResult,
      ∃ i, ∃ hi : i < (m :: ms).length,
        ms.foldl bestOf m = (m :: ms).get ⟨i, hi⟩ ∧
        (∀ j, ∀ hj : j < (m :: ms).length,
          ((m :: ms).get ⟨j, hj⟩).confidence ≤ (ms.foldl bestOf m).confidence) ∧
        (∀ j, j < i → ∀ hj : j < (m :: ms).length,
          ((m :: ms).get ⟨j, hj⟩).confidence < (ms.foldl bestOf m).confidence) := by
  induction ms with
  | nil =>
    intro m
    refine ⟨0, Nat.zero_lt_one, rfl, ?_, ?_⟩
    · intro j hj
      have hj0 : j = 0 := by
        simp only [List.length_cons, List.length_nil] at hj
        omega
      subst hj0
      exact le_refl _
    · intro j hj
      exact absurd hj (Nat.not_lt_zero j)
  | cons c t ih =>
    intro m
    rw [List.foldl_cons]
    by_cases hgt : c.confidence > m.confidence
    · have hbc : bestOf m c = c := by
        unfold bestOf
        rw [if_pos hgt]
      rw [hbc]
      obtain ⟨i, hi, heq, hmax, hfirst⟩ := ih c
      refine ⟨i + 1, Nat.succ_lt_succ hi, heq, ?_, ?_⟩
      · intro j hj
        cases j with
        | zero => exact le_of_lt (lt_of_lt_of_le hgt (hmax 0 (Nat.succ_pos _)))
        | succ j2 => exact hmax j2 (Nat.lt_of_succ_lt_succ hj)
      · intro j hjlt hj
        cases j with
        | zero => exact lt_of_lt_of_le hgt (hmax 0 (Nat.succ_pos _))
        | succ j2 =>
          exact hfirst j2 (Nat.lt_of_succ_lt_succ hjlt) (Nat.lt_of_succ_lt_succ hj)
    · have hbc : bestOf m c = m := by
        unfold bestOf
        rw [if_neg hgt]
      rw [hbc]
      obtain ⟨i, hi, heq, hmax, hfirst⟩ := ih m
      cases i with
      | zero =>
        refine ⟨0, Nat.succ_pos _, heq, ?_, ?_⟩
        · intro j hj
          cases j with
          | zero => exact hmax 0 (Nat.succ_pos _)
          | succ j2 =>
            cases j2 with
            | zero => exact le_trans (not_lt.mp hgt) (hmax 0 (Nat.succ_pos _))
            | succ j3 => exact hmax (j3 + 1) (Nat.lt_of_succ_lt_succ hj)
        · intro j hjlt hj
          exact absurd hjlt (Nat.not_lt_zero j)
      | succ k =>
        refine ⟨k + 2, Nat.succ_lt_succ hi, heq, ?_, ?_⟩
        · intro j hj
          cases j with
          | zero => exact hmax 0 (Nat.succ_pos _)
          | succ j2 =>
            cases j2 with
            | zero => exact le_trans (not_lt.mp hgt) (hmax 0 (Nat.succ_pos _))
            | succ j3 => exact hmax (j3 + 1) (Nat.lt_of_succ_lt_succ hj)
        · intro j hjlt hj
          cases j with
          | zero => exact hfirst 0 (Nat.succ_pos _) (Nat.succ_pos _)
          | succ j2 =>
            cases j2 with
            | zero =>
              exact lt_of_le_of_lt (not_lt.mp hgt) (hfirst 0 (Nat.succ_pos _) (Nat.succ_pos _))
            | succ j3 =>
              exact hfirst (j3 + 1) (Nat.lt_of_succ_lt_succ hjlt) (Nat.lt_of_succ_lt_succ hj)

/-! ### Self-match exactness -/

lemma calculateNCC_self (nb : List ℕ)
    (hvar : calculateStdDevSq nb (calculateMean nb) ≠ 0) :
    calculateNCC nb nb (calculateMean nb) (calculateStdDevSq nb (calculateMean nb)) = 1 := by
  simp only [calculateNCC]
  rw [if_neg hvar]
  have hcov : ((List.range nb.length).map (fun i =>
      ((nb.getD i 0 : ℚ) - calculateMean nb) * ((nb.getD i 0 : ℚ) - calculateMean nb))).sum /
        (nb.length : ℚ) = calculateStdDevSq nb (calculateMean nb) := by
    unfold calculateStdDevSq
    congr 1
    exact congrArg List.sum (List.map_congr_left (fun i hi => by ring))
  rw [hcov]
  have hvpos : (0 : ℝ) ≤ ((calculateStdDevSq nb (calculateMean nb) : ℚ) : ℝ) := by
    exact_mod_cast calculateStdDevSq_nonneg nb (calculateMean nb)
  rw [Real.mul_self_sqrt hvpos]
  have hvne : ((calculateStdDevSq nb (calculateMean nb) : ℚ) : ℝ) ≠ 0 := by
    exact_mod_cast hvar
  rw [div_self hvne]
  norm_num

lemma window_index_bound (hw hh nw nh x0 y0 j : ℕ) (hx : x0 + nw ≤ hw) (hy : y0 + nh ≤ hh)
    (hj : j < nh) : (y0 + j) * hw + x0 + nw ≤ hw * hh := by
  calc (y0 + j) * hw + x0 + nw ≤ (y0 + j) * hw + hw := by omega
    _ = (y0 + j + 1) * hw := by ring
    _ ≤ hh * hw := Nat.mul_le_mul_right hw (by omega)
    _ = hw * hh := Nat.mul_comm hh hw

lemma templateMatch_self_mem (hb : List ℕ) (hw hh nw nh x0 y0 : ℕ) (t : ℝ)
    (hnw : 0 < nw) (hnh : 0 < nh) (hx : x0 + nw ≤ hw) (hy : y0 + nh ≤ hh)
    (hlen : hb.length = hw * hh) (ht : t ≤ 1) :
    ({ confidence := 1, location := ⟨x0, y0, nw, nh⟩, error := none } : MatchResult) ∈
      templateMatch hb hw hh (extractRegion hb hw x0 y0 nw nh) nw nh t := by
  set nb := extractRegion hb hw x0 y0 nw nh with hnb
  have hnblen : nb.length = nh * nw := extractRegion_length hb hw x0 y0 nw nh
  have hgetD : ∀ j < nh, ∀ i < nw,
      nb.getD (j * nw + i) 0 = hb.getD ((y0 + j) * hw + (x0 + i)) 0 := by
    intro j hj i hi
    exact extractRegion_getD hb hw x0 y0 nw nh i j hi hj
      (by rw [hlen]; exact window_index_bound hw hh nw nh x0 y0 j hx hy hj)
  by_cases hvar : calculateStdDevSq nb (calculateMean nb) = 0
  · rw [templateMatch_uniform _ _ _ _ _ _ _ hvar]
    rw [mem_findUniformMatches]
    refine ⟨x0, y0, by omega, by omega, ?_, rfl⟩
    intro j hj i hi
    have hconst := (calculateStdDevSq_eq_zero_iff nb (calculateMean nb)).mp hvar
    have hidx : j * nw + i < nb.length := by
      rw [hnblen]
      calc j * nw + i < j * nw + nw := by omega
        _ = (j + 1) * nw := by ring
        _ ≤ nh * nw := Nat.mul_le_mul_right nw (by omega)
    have := hconst (j * nw + i) hidx
    rw [hgetD j hj i hi] at this
    exact this
  · rw [templateMatch_general _ _ _ _ _ _ _ hvar]
    rw [mem_templateMatchRaster]
    refine ⟨x0, y0, by omega, by omega, ?_, ?_⟩
    · rw [← hnb, calculateNCC_self nb hvar]
      exact ht
    · rw [← hnb, calculateNCC_self nb hvar]

/-! ### Threshold handling -/

/-- The fallback `findUniformMatches` never reads its `minConfidence` argument. -/
lemma findUniformMatches_threshold (hb : List ℕ) (hw hh : ℕ) (nb : List ℕ) (nw nh : ℕ)
    (v : ℚ) (t t2 : ℝ) :
    findUniformMatches hb hw hh nb nw nh v t = findUniformMatches hb hw hh nb nw nh v t2 := rfl

lemma templateMatch_threshold_mono (hb : List ℕ) (hw hh : ℕ) (nb : List ℕ) (nw nh : ℕ)
    (t1 t2 : ℝ) (hle : t1 ≤ t2) (m : MatchResult)
    (hm : m ∈ templateMatch hb hw hh nb nw nh t2) :
    m ∈ templateMatch hb hw hh nb nw nh t1 := by
  by_cases hvar : calculateStdDevSq nb (calculateMean nb) = 0
  · rw [templateMatch_uniform _ _ _ _ _ _ _ hvar] at hm ⊢
    rw [findUniformMatches_threshold hb hw hh nb nw nh (calculateMean nb) t1 t2]
    exact hm
  · rw [templateMatch_general _ _ _ _ _ _ _ hvar] at hm ⊢
    rw [mem_templateMatchRaster] at hm ⊢
    obtain ⟨x, y, hy, hx, hconf, hmeq⟩ := hm
    exact ⟨x, y, hy, hx, le_trans hle hconf, hmeq⟩

lemma findMatches_uniform_threshold (haystack needle : Image) (c1 c2 : Option ℝ)
    (hvar : calculateStdDevSq needle.data (calculateMean needle.data) = 0) :
    findMatches { haystack := haystack, needle := needle, confidence := c1 } =
      findMatches { haystack := haystack, needle := needle, confidence := c2 } := by
  unfold findMatches imageToRawBuffer
  dsimp only
  by_cases h1 : haystack.width < needle.width ∨ haystack.height < needle.height
  · rw [if_pos h1, if_pos h1]
  · rw [if_neg h1, if_neg h1]
    by_cases h2 : 0 < haystack.width ∧ 0 < haystack.height ∧
        haystack.data.length = haystack.width * haystack.height
    · rw [if_pos h2]
      by_cases h3 : 0 < needle.width ∧ 0 < needle.height ∧
          needle.data.length = needle.width * needle.height
      · rw [if_pos h3]
        show Except.ok (templateMatch haystack.data haystack.width haystack.height
            needle.data needle.width needle.height (c1.getD DEFAULT_CONFIDENCE)) =
          Except.ok (templateMatch haystack.data haystack.width haystack.height
            needle.data needle.width needle.height (c2.getD DEFAULT_CONFIDENCE))
        rw [templateMatch_uniform _ _ _ _ _ _ _ hvar,
          templateMatch_uniform _ _ _ _ _ _ _ hvar]
        rfl
      · rw [if_neg h3]
    · rw [if_neg h2]

/-! ### Claim theorems -/

/-- C1: `findMatch` never throws.  If `findMatches` returns an empty list,
`findMatch` returns confidence `0`, location `Region (0,0,0,0)` and the
embedded `No matches found` error; if `findMatches` throws (validation or
conversion failure), `findMatch` catches the error and returns it embedded in
a confidence-`0` result with location `Region (0,0,0,0)` instead of
propagating it.  (`findMatch` is a total function into `MatchResult`, so no
exception can escape it.) -/
theorem findMatch_never_throws (req : MatchRequest) :
    (∀ e, findMatches req = .error e →
      findMatch req = { confidence := 0, location := ⟨0, 0, 0, 0⟩, error := some e }) ∧
    (findMatches req = .ok [] →
      findMatch req =
        { confidence := 0, location := ⟨0, 0, 0, 0⟩, error := some .noMatchesFound }) :=
  ⟨fun e he => findMatch_of_error req e he, fun h => findMatch_of_empty req h⟩

/-- C2: a needle strictly wider or strictly taller than the haystack makes
`findMatches` throw the validation error (before any scanning — the result is
the error, not an empty list), and makes `findMatch` return confidence `0`
with that error embedded and location `Region (0,0,0,0)`. -/
theorem needle_larger_hard_failure (req : MatchRequest)
    (h : req.needle.width > req.haystack.width ∨ req.needle.height > req.haystack.height) :
    findMatches req = .error .needleLargerThanHaystack ∧
    findMatch req =
      { confidence := 0, location := ⟨0, 0, 0, 0⟩, error := some .needleLargerThanHaystack } :=
    by
  have h1 : findMatches req = .error .needleLargerThanHaystack := by
    unfold findMatches
    rw [if_pos h]
  exact ⟨h1, findMatch_of_error req _ h1⟩

/-- C3: for a request with a zero-variance (uniform) needle, `findMatches`
uses the exact-match fallback: every returned match has confidence exactly
`1`, and for every candidate offset `(x, y)` of the scan a match at that
offset is returned if and only if every pixel of the haystack window equals
the constant needle value (which equals the needle mean, last conjunct); no
partial or near matches are produced. -/
theorem uniform_needle_exact_fallback (req : MatchRequest) (ms : List MatchResult)
    (hvar : calculateStdDevSq req.needle.data (calculateMean req.needle.data) = 0)
    (h : findMatches req = .ok ms) :
    (∀ m ∈ ms, m.confidence = 1) ∧
    (∀ x y, y < req.haystack.height + 1 - req.needle.height →
      x < req.haystack.width + 1 - req.needle.width →
      (({ confidence := 1, location := ⟨x, y, req.needle.width, req.needle.height⟩,
          error := none } : MatchResult) ∈ ms ↔
        uniformWindowHit req.haystack.data req.haystack.width req.needle.width
          req.needle.height (calculateMean req.needle.data) x y)) ∧
    (∀ i < req.needle.data.length,
      (req.needle.data.getD i 0 : ℚ) = calculateMean req.needle.data) := by
  obtain ⟨h1, h2, h3, hms⟩ := findMatches_ok_inv req ms h
  rw [templateMatch_uniform _ _ _ _ _ _ _ hvar] at hms
  subst hms
  refine ⟨?_, ?_, (calculateStdDevSq_eq_zero_iff _ _).mp hvar⟩
  · intro m hm
    obtain ⟨x, y, _, _, _, hmeq⟩ := (mem_findUniformMatches _ _ _ _ _ _ _ _ _).mp hm
    rw [hmeq]
  · intro x y hy hx
    rw [mem_findUniformMatches]
    constructor
    · rintro ⟨x2, y2, hy2, hx2, hhit2, hmeq⟩
      have hr : (⟨x, y, req.needle.width, req.needle.height⟩ : Region) =
          ⟨x2, y2, req.needle.width, req.needle.height⟩ := congrArg MatchResult.location hmeq
      injection hr with hxx hyy
      rw [hxx, hyy]
      exact hhit2
    · intro hhit
      exact ⟨x, y, hy, hx, hhit, rfl⟩

/-- C4: whenever `findMatches` returns a non-empty list, `findMatch` returns
the element of that list with strictly greatest confidence; among elements
sharing the maximal confidence it returns the first one in the list's scan
order (the linear reduction replaces the current best only on strictly
greater confidence). -/
theorem findMatch_first_max (req : MatchRequest) (ms : List MatchResult)
    (h : findMatches req = .ok ms) (hne : ms ≠ []) :
    ∃ i, ∃ hi : i < ms.length,
      findMatch req = ms.get ⟨i, hi⟩ ∧
      (∀ j, ∀ hj : j < ms.length,
        (ms.get ⟨j, hj⟩).confidence ≤ (findMatch req).confidence) ∧
      (∀ j, j < i → ∀ hj : j < ms.length,
        (ms.get ⟨j, hj⟩).confidence < (findMatch req).confidence) := by
  cases ms with
  | nil => exact absurd rfl hne
  | cons first rest =>
    rw [findMatch_of_cons req first rest h]
    exact foldl_bestOf_firstMax rest first

/-- C5: on every request on which `findMatches` returns normally, every
returned `MatchResult` has confidence in the closed interval `[0, 1]` (the
general branch reports `(NCC + 1) / 2` with `NCC ∈ [-1, 1]` by
Cauchy-Schwarz, the degenerate branch reports exactly `1`). -/
theorem findMatches_confidence_unit_interval (req : MatchRequest) (ms : List MatchResult)
    (h : findMatches req = .ok ms) :
    ∀ m ∈ ms, 0 ≤ m.confidence ∧ m.confidence ≤ 1 := by
  obtain ⟨h1, h2, h3, hms⟩ := findMatches_ok_inv req ms h
  intro m hm
  rw [hms] at hm
  exact templateMatch_confidence_unit _ _ _ _ _ _ _ h3.2.2 m hm

/-- C6: threshold monotonicity — for the same haystack and needle and
thresholds `t1 < t2`, every match returned at threshold `t2` has a match at
the same region in the list returned at threshold `t1`. -/
theorem findMatches_threshold_monotone (haystack needle : Image) (t1 t2 : ℝ)
    (l1 l2 : List MatchResult) (hlt : t1 < t2)
    (h1 : findMatches { haystack := haystack, needle := needle, confidence := some t1 } =
      .ok l1)
    (h2 : findMatches { haystack := haystack, needle := needle, confidence := some t2 } =
      .ok l2) :
    ∀ m ∈ l2, ∃ m1 ∈ l1, m1.location = m.location := by
  obtain ⟨hv1, hc1, hn1, hl1⟩ := findMatches_ok_inv _ _ h1
  obtain ⟨hv2, hc2, hn2, hl2⟩ := findMatches_ok_inv _ _ h2
  intro m hm
  refine ⟨m, ?_, rfl⟩
  rw [hl1]
  rw [hl2] at hm
  exact templateMatch_threshold_mono _ _ _ _ _ _ _ _ (le_of_lt hlt) m hm

/-- C7: self-match exactness — if the needle's grayscale buffer is exactly
the haystack window extracted at `(x0, y0)` and the threshold is at most `1`,
`findMatches` succeeds and its result includes a match at region
`(x0, y0, needleWidth, needleHeight)` with confidence exactly `1` (via NCC
when the window is non-constant, via the exact-match fallback when it is
constant). -/
theorem findMatches_self_match (req : MatchRequest) (x0 y0 : ℕ)
    (hx : x0 + req.needle.width ≤ req.haystack.width)
    (hy : y0 + req.needle.height ≤ req.haystack.height)
    (hnw : 0 < req.needle.width) (hnh : 0 < req.needle.height)
    (hhlen : req.haystack.data.length = req.haystack.width * req.haystack.height)
    (hextract : req.needle.data = extractRegion req.haystack.data req.haystack.width x0 y0
      req.needle.width req.needle.height)
    (ht : req.confidence.getD DEFAULT_CONFIDENCE ≤ 1) :
    ∃ ms, findMatches req = .ok ms ∧
      ({ confidence := 1, location := ⟨x0, y0, req.needle.width, req.needle.height⟩,
         error := none } : MatchResult) ∈ ms := by
  have hneedlelen : req.needle.data.length = req.needle.width * req.needle.height := by
    rw [hextract, extractRegion_length, Nat.mul_comm]
  have hok := findMatches_eq_ok req (by push_neg; exact ⟨by omega, by omega⟩)
    ⟨by omega, by omega, hhlen⟩ ⟨hnw, hnh, hneedlelen⟩
  refine ⟨_, hok, ?_⟩
  rw [hextract]
  exact templateMatch_self_mem _ _ _ _ _ _ _ _ hnw hnh hx hy hhlen ht

/-- C8: zero-length buffers never reach the statistics functions — on every
request on which `findMatches` returns normally (it passed validation and
buffer conversion), the needle buffer handed to `calculateMean` and
`calculateStdDev` is non-empty, and every window buffer produced by
`extractRegion` (the only other argument ever passed to the statistics
functions, inside `calculateNCC`) is non-empty, so the divisions by buffer
length never divide by zero. -/
theorem stats_buffers_nonempty (req : MatchRequest) (ms : List MatchResult)
    (h : findMatches req = .ok ms) :
    req.needle.data.length ≠ 0 ∧
    (∀ x y, (extractRegion req.haystack.data req.haystack.width x y req.needle.width
      req.needle.height).length ≠ 0) := by
  obtain ⟨h1, h2, h3, -⟩ := findMatches_ok_inv req ms h
  constructor
  · rw [h3.2.2]
    exact Nat.mul_ne_zero (by omega) (by omega)
  · intro x y
    rw [extractRegion_length]
    exact Nat.mul_ne_zero (by omega) (by omega)

/-- C9: in the general (non-degenerate needle) case, `templateMatch`
evaluates candidate offsets in raster order — outer loop over `y` ascending,
inner loop over `x` ascending — and returns the accumulated matches in that
scan order (not sorted by confidence): it equals the declarative raster-order
description `templateMatchRaster`. -/
theorem templateMatch_raster_scan_order (hb : List ℕ) (hw hh : ℕ) (nb : List ℕ)
    (nw nh : ℕ) (t : ℝ) (hvar : calculateStdDevSq nb (calculateMean nb) ≠ 0) :
    templateMatch hb hw hh nb nw nh t = templateMatchRaster hb hw hh nb nw nh t :=
  templateMatch_general hb hw hh nb nw nh t hvar

/-- C10 (implicit): the degenerate (uniform needle) branch ignores the
requested minimum confidence entirely — `findMatches` returns the same list
for any two thresholds (including thresholds above `1`), and every returned
match has confidence exactly `1`, even when that is below the requested
threshold. -/
theorem uniform_needle_ignores_threshold (haystack needle : Image) (c1 c2 : Option ℝ)
    (hvar : calculateStdDevSq needle.data (calculateMean needle.data) = 0) :
    findMatches { haystack := haystack, needle := needle, confidence := c1 } =
      findMatches { haystack := haystack, needle := needle, confidence := c2 } ∧
    (∀ ms, findMatches { haystack := haystack, needle := needle, confidence := c1 } =
        .ok ms → ∀ m ∈ ms, m.confidence = 1) := by
  refine ⟨findMatches_uniform_threshold haystack needle c1 c2 hvar, ?_⟩
  intro ms h m hm
  obtain ⟨h1, h2, h3, hms⟩ := findMatches_ok_inv _ _ h
  rw [templateMatch_uniform _ _ _ _ _ _ _ hvar] at hms
  rw [hms] at hm
  obtain ⟨x, y, -, -, -, hmeq⟩ := (mem_findUniformMatches _ _ _ _ _ _ _ _ _).mp hm
  rw [hmeq]

/-! ### Witnesses: the claim theorems applied at concrete requests -/

/-- C1 witness: a 3×1 needle against a 2×1 haystack hits the error path; a
uniform 1×1 needle absent from the haystack hits the empty path. -/
theorem findMatch_never_throws_witness :
    findMatch
      { haystack := ⟨2, 1, [5, 7]⟩, needle := ⟨3, 1, [1, 2, 3]⟩, confidence := none } =
      { confidence := 0, location := ⟨0, 0, 0, 0⟩, error := some .needleLargerThanHaystack } ∧
    findMatch { haystack := ⟨2, 1, [5, 7]⟩, needle := ⟨1, 1, [9]⟩, confidence := none } =
      { confidence := 0, location := ⟨0, 0, 0, 0⟩, error := some .noMatchesFound } :=
  ⟨(findMatch_never_throws _).1 .needleLargerThanHaystack rfl,
   (findMatch_never_throws _).2 (by
    norm_num [findMatches, imageToRawBuffer, templateMatch, findUniformMatches,
      calculateStdDevSq, calculateMean, List.range_succ])⟩

/-- C2 witness: a 3×1 needle is strictly wider than a 2×1 haystack. -/
theorem needle_larger_hard_failure_witness :
    findMatches
      { haystack := ⟨2, 1, [5, 7]⟩, needle := ⟨3, 1, [1, 2, 3]⟩, confidence := none } =
      .error .needleLargerThanHaystack ∧
    findMatch
      { haystack := ⟨2, 1, [5, 7]⟩, needle := ⟨3, 1, [1, 2, 3]⟩, confidence := none } =
      { confidence := 0, location := ⟨0, 0, 0, 0⟩,
        error := some .needleLargerThanHaystack } :=
  needle_larger_hard_failure _ (Or.inl (by decide))

/-- C3 witness: the uniform needle `[5]` on haystack `[5, 7]` yields exactly
the full-confidence match at the offset whose window equals the value. -/
theorem uniform_needle_exact_fallback_witness :
    ({ confidence := 1, location := ⟨0, 0, 1, 1⟩, error := none } : MatchResult).confidence =
      1 :=
  (uniform_needle_exact_fallback
    { haystack := ⟨2, 1, [5, 7]⟩, needle := ⟨1, 1, [5]⟩, confidence := none }
    [{ confidence := 1, location := ⟨0, 0, 1, 1⟩, error := none }]
    (by norm_num [calculateStdDevSq, calculateMean, List.range_succ])
    (by
      norm_num [findMatches, imageToRawBuffer, templateMatch, findUniformMatches,
        calculateStdDevSq, calculateMean, List.range_succ])).1 _ (by simp)

/-- C4 witness: a single-element result list, on which `findMatch` picks
index 0. -/
theorem findMatch_first_max_witness :
    ∃ i, ∃ hi : i <
        [({ confidence := 1, location := ⟨0, 0, 1, 1⟩, error := none } : MatchResult)].length,
      findMatch { haystack := ⟨2, 1, [5, 7]⟩, needle := ⟨1, 1, [5]⟩, confidence := none } =
        [({ confidence := 1, location := ⟨0, 0, 1, 1⟩, error := none } : MatchResult)].get
          ⟨i, hi⟩ ∧
      (∀ j, ∀ hj : j <
          [({ confidence := 1, location := ⟨0, 0, 1, 1⟩,
              error := none } : MatchResult)].length,
        ([({ confidence := 1, location := ⟨0, 0, 1, 1⟩,
             error := none } : MatchResult)].get ⟨j, hj⟩).confidence ≤
          (findMatch
            { haystack := ⟨2, 1, [5, 7]⟩, needle := ⟨1, 1, [5]⟩,
              confidence := none }).confidence) ∧
      (∀ j, j < i → ∀ hj : j <
          [({ confidence := 1, location := ⟨0, 0, 1, 1⟩,
              error := none } : MatchResult)].length,
        ([({ confidence := 1, location := ⟨0, 0, 1, 1⟩,
             error := none } : MatchResult)].get ⟨j, hj⟩).confidence <
          (findMatch
            { haystack := ⟨2, 1, [5, 7]⟩, needle := ⟨1, 1, [5]⟩,
              confidence := none }).confidence) :=
  findMatch_first_max
    { haystack := ⟨2, 1, [5, 7]⟩, needle := ⟨1, 1, [5]⟩, confidence := none }
    [{ confidence := 1, location := ⟨0, 0, 1, 1⟩, error := none }]
    (by
      norm_num [findMatches, imageToRawBuffer, templateMatch, findUniformMatches,
        calculateStdDevSq, calculateMean, List.range_succ])
    (by simp)

/-- C5 witness: the returned confidences at a concrete successful request lie
in `[0, 1]`. -/
theorem findMatches_confidence_unit_interval_witness :
    0 ≤ ({ confidence := 1, location := ⟨0, 0, 1, 1⟩, error := none } : MatchResult).confidence ∧
      ({ confidence := 1, location := ⟨0, 0, 1, 1⟩,
         error := none } : MatchResult).confidence ≤ 1 :=
  findMatches_confidence_unit_interval
    { haystack := ⟨2, 1, [5, 7]⟩, needle := ⟨1, 1, [5]⟩, confidence := none }
    [{ confidence := 1, location := ⟨0, 0, 1, 1⟩, error := none }]
    (by
      norm_num [findMatches, imageToRawBuffer, templateMatch, findUniformMatches,
        calculateStdDevSq, calculateMean, List.range_succ])
    _ (by simp)

/-- C6 witness: thresholds `1/2 < 3/4` on the same haystack/needle. -/
theorem findMatches_threshold_monotone_witness :
    ∃ m1 ∈ [({ confidence := 1, location := ⟨0, 0, 1, 1⟩, error := none } : MatchResult)],
      m1.location =
        ({ confidence := 1, location := ⟨0, 0, 1, 1⟩, error := none } : MatchResult).location :=
  findMatches_threshold_monotone ⟨2, 1, [5, 7]⟩ ⟨1, 1, [5]⟩ (1 / 2) (3 / 4)
    [{ confidence := 1, location := ⟨0, 0, 1, 1⟩, error := none }]
    [{ confidence := 1, location := ⟨0, 0, 1, 1⟩, error := none }]
    (by norm_num)
    (by
      norm_num [findMatches, imageToRawBuffer, templateMatch, findUniformMatches,
        calculateStdDevSq, calculateMean, List.range_succ])
    (by
      norm_num [findMatches, imageToRawBuffer, templateMatch, findUniformMatches,
        calculateStdDevSq, calculateMean, List.range_succ])
    _ (by simp)

/-- C7 witness: the needle `[5]` is the haystack window of `[5, 7]` extracted
at `(0, 0)`. -/
theorem findMatches_self_match_witness :
    ∃ ms, findMatches
        { haystack := ⟨2, 1, [5, 7]⟩, needle := ⟨1, 1, [5]⟩, confidence := some 1 } =
        .ok ms ∧
      ({ confidence := 1, location := ⟨0, 0, 1, 1⟩, error := none } : MatchResult) ∈ ms :=
  findMatches_self_match _ 0 0 (by decide) (by decide) (by decide) (by decide) (by decide)
    rfl (by simp)

/-- C8 witness: on a concrete successful request the statistics inputs are
non-empty. -/
theorem stats_buffers_nonempty_witness :
    ([5] : List ℕ).length ≠ 0 ∧ (∀ x y, (extractRegion [5, 7] 2 x y 1 1).length ≠ 0) :=
  stats_buffers_nonempty
    { haystack := ⟨2, 1, [5, 7]⟩, needle := ⟨1, 1, [5]⟩, confidence := none }
    [{ confidence := 1, location := ⟨0, 0, 1, 1⟩, error := none }]
    (by
      norm_num [findMatches, imageToRawBuffer, templateMatch, findUniformMatches,
        calculateStdDevSq, calculateMean, List.range_succ])

/-- C9 witness: the needle `[0, 2]` has non-zero variance, so the concrete
scan equals its raster-order description. -/
theorem templateMatch_raster_scan_order_witness :
    templateMatch [0, 2] 2 1 [0, 2] 2 1 (4 / 5) =
      templateMatchRaster [0, 2] 2 1 [0, 2] 2 1 (4 / 5) :=
  templateMatch_raster_scan_order _ _ _ _ _ _ _
    (by norm_num [calculateStdDevSq, calculateMean, List.range_succ])

/-- C10 witness: a uniform needle with requested thresholds `2` (above `1`)
and `1/2`: same result either way, confidences all `1`. -/
theorem uniform_needle_ignores_threshold_witness :
    findMatches
      { haystack := ⟨2, 1, [5, 7]⟩, needle := ⟨1, 1, [5]⟩, confidence := some 2 } =
      findMatches
        { haystack := ⟨2, 1, [5, 7]⟩, needle := ⟨1, 1, [5]⟩, confidence := some (1 / 2) } ∧
    (∀ ms, findMatches
        { haystack := ⟨2, 1, [5, 7]⟩, needle := ⟨1, 1, [5]⟩, confidence := some 2 } =
        .ok ms → ∀ m ∈ ms, m.confidence = 1) :=
  uniform_needle_ignores_threshold ⟨2, 1, [5, 7]⟩ ⟨1, 1, [5]⟩ (some 2) (some (1 / 2))
    (by norm_num [calculateStdDevSq, calculateMean, List.range_succ])

end KmAutoDesk
